import Mathlib

/-!
Verification of the modelfusion call-orchestration core against its
natural-language specification.  The TypeScript source is shallowly
embedded: JavaScript objects become association lists of string keys and
`JsValue`s, `Object.assign` becomes `assignProps`, promises that can
reject become `Except`, and the side effects the claims talk about
(tool-action invocation, provider-request issuance, object allocation)
are made explicit as traces or heaps.
-/

namespace ModelFusion

/-- A JavaScript runtime value, as far as the verified claims need to
distinguish values.  `undef` is the value `undefined` (a property that is
*present* with value `undefined` is distinct from an absent property).
Numbers are only ever carried through the settings objects, never computed
with, so their representation is irrelevant to the claims; opaque runtime
objects (abort signals, retry/throttle policies, response-format
handlers) are identified by an id. -/
inductive JsValue where
  | undef : JsValue
  | str : String → JsValue
  | num : Int → JsValue
  | bool : Bool → JsValue
  | obj : Nat → JsValue
deriving DecidableEq, Repr

/-- A JavaScript object, as its ordered list of own enumerable properties
(`Object.entries` view).  Real JS objects never repeat a key. -/
abbrev JsObject := List (String × JsValue)

/-- Property read: first binding of the key wins (JS objects never have
duplicate keys, so this is the only binding). -/
def getProp : JsObject → String → Option JsValue
  | [], _ => none
  | (k₀, v₀) :: rest, k => if k = k₀ then some v₀ else getProp rest k

/-- `target[k] = v`: update the existing binding in place, or append a new
binding at the end — the semantics of a JS property write. -/
def setProp : JsObject → String → JsValue → JsObject
  | [], k, v => [(k, v)]
  | (k₀, v₀) :: rest, k, v =>
    if k = k₀ then (k₀, v) :: rest else (k₀, v₀) :: setProp rest k v

/-- `Object.assign(target, source)` (single source): copy each own
enumerable property of `source` into `target`, in order, returning the
mutated target. -/
def assignProps (target : JsObject) (source : JsObject) : JsObject :=
  source.foldl (fun acc kv => setProp acc kv.1 kv.2) target

/-- Left-biased choice on `Option`, the composition law of property
lookups through layered objects. -/
def firstSome : Option JsValue → Option JsValue → Option JsValue
  | some v, _ => some v
  | none, b => b

/-- The keys of an object. -/
def keys (o : JsObject) : List String := o.map Prod.fst

/-- A single property entry when the optional field is set, nothing when
it is absent (`Object.entries` / spread skip absent fields). -/
def optEntry (k : String) (v : Option JsValue) : JsObject :=
  match v with
  | some x => [(k, x)]
  | none => []

/-! ## Tool execution (`useTool`, src/unnamed/part_000)

`useTool(model, tool, prompt, options)` awaits
`generateJson(model, {name, description, schema: tool.inputSchema}, …)`
and, on success, returns
`{tool: tool.name, parameters: value, result: await executeTool(tool, value, options)}`.
The generation phase is embedded as a function from the schema
description `useTool` passes to `generateJson` to the (possibly
rejected) validated value; the model, prompt function and options that
`useTool` merely forwards are folded into that function. -/

/-- The `{name, description, schema}` object `useTool` hands to
`generateJson`. -/
structure SchemaDescription (S : Type) where
  name : String
  description : String
  schema : S

/-- Modelled from the spec: a `Tool` (its definition file `Tool.ts` is not
under src/) is "`name`, `description`, an input `Schema`, and an
`execute(input) → result` action"; the action "may fail with an arbitrary
domain error" (§3, §6).  `S` is the schema value, `P` the validated
parameter type, `R` the action's output, `E` its domain error. -/
structure Tool (S P R E : Type) where
  name : String
  description : String
  inputSchema : S
  execute : P → Except E R

/-- Modelled from the spec: `executeTool` (not under src/; only its call
site in `useTool` is) "invoke[s] the tool's action with the validated
parameters"; "a failure during action invocation is a distinct
tool-execution error" (§4.7). -/
def executeTool (S P R E : Type) (tool : Tool S P R E) (input : P) : Except E R :=
  tool.execute input

/-- The phase-separated error channel of `useTool`: a rejection of the
generation phase or a rejection of the action phase, never conflated. -/
inductive UseToolError (GenErr E : Type) where
  | generation : GenErr → UseToolError GenErr E
  | toolExecution : E → UseToolError GenErr E
deriving DecidableEq, Repr

/-- The record `useTool` resolves with. -/
structure UseToolRecord (P R : Type) where
  tool : String
  parameters : P
  result : R
deriving DecidableEq, Repr

/-- Observable phase events of one `useTool` call, in order of
occurrence: the generation phase settles first, and each invocation of
the tool's execute action is recorded with the input it receives. -/
inductive ToolEvent (P : Type) where
  | generationFailed : ToolEvent P
  | generationSucceeded : P → ToolEvent P
  | executeInvoked : P → ToolEvent P
deriving DecidableEq, Repr

/-- Does an event record an invocation of the tool's execute action? -/
def ToolEvent.isExecuteInvoked (P : Type) : ToolEvent P → Bool
  | .executeInvoked _ => true
  | _ => false

/-- Shallow embedding of `useTool` plus its event trace.  `gen` is the
generation phase (`generateJson … .asFullResponse()`'s `output`), applied
to exactly the schema-description object built from the tool. -/
def useTool (S P R E GenErr : Type)
    (gen : SchemaDescription S → Except GenErr P) (tool : Tool S P R E) :
    Except (UseToolError GenErr E) (UseToolRecord P R) × List (ToolEvent P) :=
  match gen ⟨tool.name, tool.description, tool.inputSchema⟩ with
  | .error e => (.error (.generation e), [.generationFailed])
  | .ok value =>
    match executeTool S P R E tool value with
    | .error e =>
        (.error (.toolExecution e),
         [.generationSucceeded value, .executeInvoked value])
    | .ok r =>
        (.ok ⟨tool.name, value, r⟩,
         [.generationSucceeded value, .executeInvoked value])

/-! ## `generateText` output extraction (src/unnamed/part_000)

`generateText` passes to the call executor an `extractOutputValue`
closure over the model: `shouldTrimWhitespace = settings.trimWhitespace ?? true`,
then `model.extractText(result).trim()` or `model.extractText(result)`.
Only the `trimWhitespace` field of `TextGenerationModelSettings` is read
here, so the settings embedding carries exactly that field. -/

/-- The slice of `TextGenerationModelSettings` that `generateText`
reads. -/
structure TextGenerationModelSettings where
  trimWhitespace : Option Bool

/-- A text-generation model as `generateText`'s extractor uses it:
settings plus `extractText` over the raw response type `R`. -/
structure TextGenerationModel (R : Type) where
  settings : TextGenerationModelSettings
  extractText : R → String

/-- The `extractOutputValue` closure `generateText` installs:
`settings.trimWhitespace ?? true` selects between the trimmed and the
raw extracted text. -/
def generateTextExtractOutputValue (R : Type) (model : TextGenerationModel R)
    (result : R) : String :=
  let shouldTrimWhitespace := model.settings.trimWhitespace.getD true
  if shouldTrimWhitespace then (model.extractText result).trim
  else model.extractText result

/-! ## Run context

`RunContext` carries `userId` and `abortSignal` as the embedded model
functions use them (`context?.userId`, `context?.abortSignal`).  An abort
signal is an opaque runtime object, identified by an id. -/

/-- The slice of a run context the embedded calls read. -/
structure RunContext where
  userId : Option String
  abortSignal : Nat
deriving DecidableEq, Repr

/-- `string | undefined` coerced into a JS value. -/
def jsOfOptStr : Option String → JsValue
  | some s => .str s
  | none => JsValue.undef

/-- `context?.abortSignal` as a JS value (`undefined` when no context). -/
def jsOfAbortSignal : Option RunContext → JsValue
  | some c => .obj c.abortSignal
  | none => JsValue.undef

/-! ## `OpenAITextGenerationModel`
(src/src/provider/openai/text/OpenAITextGenerationModel.ts)

Settings values other than `isUserIdForwardingEnabled` are only carried
into the provider request, never inspected, so they are embedded as bare
`JsValue`s.  `isUserIdForwardingEnabled` is branched on with JS
truthiness (`undefined` and `false` are falsy), hence `Option Bool`. -/

/-- `OpenAITextGenerationModelSettings`, field for field. -/
structure OpenAITextGenerationModelSettings where
  isUserIdForwardingEnabled : Option Bool
  suffix : Option JsValue
  maxTokens : Option JsValue
  temperature : Option JsValue
  topP : Option JsValue
  n : Option JsValue
  logprobs : Option JsValue
  echo : Option JsValue
  stop : Option JsValue
  presencePenalty : Option JsValue
  frequencyPenalty : Option JsValue
  bestOf : Option JsValue

/-- The own enumerable properties of a settings object
(`...this.settings` / `Object.entries(this.settings)` view), in field
declaration order. -/
def textSettingsEntries (s : OpenAITextGenerationModelSettings) : JsObject :=
  optEntry "isUserIdForwardingEnabled" (s.isUserIdForwardingEnabled.map JsValue.bool) ++
  optEntry "suffix" s.suffix ++
  optEntry "maxTokens" s.maxTokens ++
  optEntry "temperature" s.temperature ++
  optEntry "topP" s.topP ++
  optEntry "n" s.n ++
  optEntry "logprobs" s.logprobs ++
  optEntry "echo" s.echo ++
  optEntry "stop" s.stop ++
  optEntry "presencePenalty" s.presencePenalty ++
  optEntry "frequencyPenalty" s.frequencyPenalty ++
  optEntry "bestOf" s.bestOf

/-- The fields of `OpenAITextGenerationModel` that its `generate` and
`withSettings` read (tokenizer and token limits play no part in the
verified claims). -/
structure OpenAITextGenerationModel where
  baseUrl : Option String
  apiKey : String
  model : String
  settings : OpenAITextGenerationModelSettings

/-- The explicitly listed keys of the object literal `generate` passes to
`generateOpenAITextCompletion`, before the settings spread:
`{baseUrl, abortSignal, apiKey, prompt, model, user: fwd ? context?.userId : undefined, …}`. -/
def textRequestBase (m : OpenAITextGenerationModel) (input : String)
    (context : Option RunContext) : JsObject :=
  [("baseUrl", jsOfOptStr m.baseUrl),
   ("abortSignal", jsOfAbortSignal context),
   ("apiKey", .str m.apiKey),
   ("prompt", .str input),
   ("model", .str m.model),
   ("user",
    if m.settings.isUserIdForwardingEnabled.getD false then
      jsOfOptStr (context.bind RunContext.userId)
    else JsValue.undef)]

/-- The request object `generate` passes to
`generateOpenAITextCompletion`: the listed keys first, then
`...this.settings` spread over them. -/
def textGenerateRequest (m : OpenAITextGenerationModel) (input : String)
    (context : Option RunContext) : JsObject :=
  assignProps (textRequestBase m input context) (textSettingsEntries m.settings)

/-- One choice of an OpenAI text completion response; only `.text` is
read (the response type itself sits outside src/). -/
structure OpenAITextGenerationChoice where
  text : String
deriving DecidableEq, Repr

/-- An OpenAI text completion response, as far as `extractOutput`
reads it. -/
structure OpenAITextGenerationResponse where
  choices : List OpenAITextGenerationChoice
deriving DecidableEq, Repr

/-- `extractOutput`: `rawOutput.choices[0]!.text`.  Indexing an empty
array yields `undefined` and the `.text` access throws, so the
embedding returns `none` there — no value is produced. -/
def OpenAITextGenerationModel.extractOutput
    (rawOutput : OpenAITextGenerationResponse) : Option String :=
  rawOutput.choices.head?.map OpenAITextGenerationChoice.text

/-! ## `OpenAIImageGenerationModel`
(src/src/model-provider/openai/OpenAIImageGenerationModel.ts) -/

/-- `OpenAIImageGenerationSettings`: the call settings (`n`, `size`), the
OpenAI model settings its methods read (`baseUrl`, `apiKey`, `retry`,
`throttle`) and the user-id opt-in flag.  `apiKey` is read as a string by
the key getter; the flag is branched on; all other values are carried
uninterpreted. -/
structure OpenAIImageGenerationSettings where
  baseUrl : Option JsValue
  n : Option JsValue
  size : Option JsValue
  apiKey : Option String
  retry : Option JsValue
  throttle : Option JsValue
  isUserIdForwardingEnabled : Option Bool

/-- The own enumerable properties of an image-model settings object. -/
def imageSettingsEntries (s : OpenAIImageGenerationSettings) : JsObject :=
  optEntry "baseUrl" s.baseUrl ++
  optEntry "n" s.n ++
  optEntry "size" s.size ++
  optEntry "apiKey" (s.apiKey.map JsValue.str) ++
  optEntry "retry" s.retry ++
  optEntry "throttle" s.throttle ++
  optEntry "isUserIdForwardingEnabled" (s.isUserIdForwardingEnabled.map JsValue.bool)

/-- The private `apiKey` getter:
`this.settings.apiKey ?? process.env.OPENAI_API_KEY`, throwing when both
are missing. -/
def openAIImageModelApiKey (settingsApiKey envApiKey : Option String) :
    Except String String :=
  match settingsApiKey with
  | some k => .ok k
  | none =>
    match envApiKey with
    | some k => .ok k
    | none =>
      .error "OpenAI API key is missing. Pass it as an argument to the constructor or set it as an environment variable named OPENAI_API_KEY."

/-- The `user` property of the defaults layer in `callAPI`:
`this.settings.isUserIdForwardingEnabled ? run?.userId : undefined`. -/
def imageUserValue (s : OpenAIImageGenerationSettings)
    (run : Option RunContext) : JsValue :=
  if s.isUserIdForwardingEnabled.getD false then
    jsOfOptStr (run.bind RunContext.userId)
  else JsValue.undef

/-- The first (defaults) layer of the `Object.assign` in `callAPI`:
`{apiKey: this.apiKey, user: …}`. -/
def imageCallDefaults (s : OpenAIImageGenerationSettings) (apiKey : String)
    (run : Option RunContext) : JsObject :=
  [("apiKey", .str apiKey), ("user", imageUserValue s run)]

/-- The last layer of the `Object.assign` in `callAPI`:
`{abortSignal: run?.abortSignal, prompt, responseFormat}`. -/
def imageCallFinals (run : Option RunContext) (prompt : String)
    (responseFormat : JsValue) : JsObject :=
  [("abortSignal", jsOfAbortSignal run),
   ("prompt", .str prompt),
   ("responseFormat", responseFormat)]

/-- The `callSettings` object built in `callAPI`:
`Object.assign({apiKey, user}, this.settings, settings, {abortSignal, prompt, responseFormat})`.
`perCall` is the per-call `options.settings` object (`undefined` behaves
as the empty object); `responseFormat` is an opaque handler value. -/
def imageCallSettings (s : OpenAIImageGenerationSettings) (apiKey : String)
    (run : Option RunContext) (perCall : JsObject) (prompt : String)
    (responseFormat : JsValue) : JsObject :=
  assignProps
    (assignProps
      (assignProps (imageCallDefaults s apiKey run) (imageSettingsEntries s))
      perCall)
    (imageCallFinals run prompt responseFormat)

/-- `callAPI` with its provider-request trace: evaluating the `apiKey`
getter happens while the first argument of `Object.assign` is built, so a
missing key throws before any call settings exist and before
`callWithRetryAndThrottle` issues any request.  The second component
lists the settings objects handed to `callOpenAIImageGenerationAPI`. -/
def imageCallAPI (s : OpenAIImageGenerationSettings) (envApiKey : Option String)
    (run : Option RunContext) (perCall : JsObject) (prompt : String)
    (responseFormat : JsValue) : Except String JsObject × List JsObject :=
  match openAIImageModelApiKey s.apiKey envApiKey with
  | .error e => (.error e, [])
  | .ok key =>
    let callSettings := imageCallSettings s key run perCall prompt responseFormat
    (.ok callSettings, [callSettings])

/-- `settingsForEvent`:
`Object.fromEntries(Object.entries(this.settings).filter(([key]) => eventSettingProperties.includes(key)))`
with `eventSettingProperties = ["baseUrl", "n", "size"]`. -/
def settingsForEvent (s : OpenAIImageGenerationSettings) : JsObject :=
  (imageSettingsEntries s).filter (fun kv => kv.1 ∈ ["baseUrl", "n", "size"])

/-- One item of the image response's `data` array (zod schema
`{b64_json: string}`). -/
structure OpenAIImageGenerationDataItem where
  b64_json : String
deriving DecidableEq, Repr

/-- `OpenAIImageGenerationBase64JsonResponse` (zod schema:
`{created: number, data: {b64_json: string}[]}`). -/
structure OpenAIImageGenerationBase64JsonResponse where
  created : Int
  data : List OpenAIImageGenerationDataItem
deriving DecidableEq, Repr

/-- `extractBase64Image`: `response.data[0].b64_json`.  On an empty
`data` array the element access yields `undefined` and the `.b64_json`
read throws; the embedding returns `none` there. -/
def extractBase64Image (response : OpenAIImageGenerationBase64JsonResponse) :
    Option String :=
  response.data.head?.map OpenAIImageGenerationDataItem.b64_json

/-! ## `withSettings` (both models)

Both `withSettings` implementations build the new model's settings with
`Object.assign({}, this.settings, additionalSettings)`.  The merge is the
pure value; the heap below makes object identity and (non-)mutation
explicit: the target of the assign is a freshly allocated empty object,
never the original settings object. -/

/-- The settings object of the model `withSettings` returns:
`Object.assign({}, current, additional)`. -/
def withSettingsMerge (current additional : JsObject) : JsObject :=
  assignProps (assignProps [] current) additional

/-- A heap of settings objects; a model's `settings` field is a
reference into it. -/
structure SettingsHeap where
  objs : List JsObject

/-- Dereference a settings object (missing references read as empty). -/
def SettingsHeap.get (h : SettingsHeap) (r : Nat) : JsObject :=
  h.objs.getD r []

/-- `withSettings` under the explicit heap: allocate a fresh empty
object, `Object.assign` the current settings and then the override into
it, and return the reference the new model instance holds.  No write ever
targets the original settings reference. -/
def withSettingsAlloc (h : SettingsHeap) (thisSettings : Nat)
    (additional : JsObject) : SettingsHeap × Nat :=
  (⟨h.objs ++ [withSettingsMerge (h.get thisSettings) additional]⟩, h.objs.length)

/-! ## Retry policy -/

/-- The observable history of one retried call: how many attempts ran,
the delay slept before each re-attempt (in order), and the surfaced
outcome. -/
structure RetryTrace (Err A : Type) where
  attemptsMade : Nat
  delays : List Nat
  outcome : Except Err A

/-- Modelled from the spec: the retry loop of
`retryWithExponentialBackoff` (its implementation is not under src/;
only a configuration call site in
docs/integration/model-provider/elevenlabs.md is).  Spec §4.2/§8: delay
before attempt k is `initialDelay × backoffFactor^(k-1)`, capped at
`maxTries` attempts including the first; on exhaustion the *last*
observed error is surfaced, never a synthetic too-many-retries error.
`attempt k` is the k-th attempt (1-indexed); `rest` counts the
re-attempts still allowed after the current one. -/
def retryGo (Err A : Type) (initialDelay backoffFactor : Nat)
    (attempt : Nat → Except Err A) : Nat → Nat → RetryTrace Err A
  | k, 0 =>
    match attempt k with
    | .ok a => ⟨1, [], .ok a⟩
    | .error e => ⟨1, [], .error e⟩
  | k, rest + 1 =>
    match attempt k with
    | .ok a => ⟨1, [], .ok a⟩
    | .error _ =>
      let t := retryGo Err A initialDelay backoffFactor attempt (k + 1) rest
      ⟨t.attemptsMade + 1, initialDelay * backoffFactor ^ k :: t.delays, t.outcome⟩

/-- Modelled from the spec: `retryWithExponentialBackoff` with
`maxTries`, `initialDelayInMs` and `backoffFactor`, run against the
sequence of attempt outcomes. -/
def retryWithExponentialBackoff (Err A : Type)
    (maxTries initialDelay backoffFactor : Nat)
    (attempt : Nat → Except Err A) : RetryTrace Err A :=
  retryGo Err A initialDelay backoffFactor attempt 1 (maxTries - 1)

/-! ## Object-model lemmas -/

theorem getProp_setProp_self (o : JsObject) (k : String) (v : JsValue) :
    getProp (setProp o k v) k = some v := by
  induction o with
  | nil => simp [setProp, getProp]
  | cons kv rest ih =>
    obtain ⟨k₀, v₀⟩ := kv
    by_cases h : k = k₀ <;> simp [setProp, getProp, h, ih]

theorem getProp_setProp_ne (o : JsObject) (k k' : String) (v : JsValue)
    (h : k' ≠ k) : getProp (setProp o k v) k' = getProp o k' := by
  induction o with
  | nil => simp [setProp, getProp, h]
  | cons kv rest ih =>
    obtain ⟨k₀, v₀⟩ := kv
    by_cases hk : k = k₀
    · subst hk
      simp [setProp, getProp, h]
    · by_cases hk' : k' = k₀ <;> simp [setProp, getProp, hk, hk', ih]

theorem getProp_append (a b : JsObject) (k : String) :
    getProp (a ++ b) k = firstSome (getProp a k) (getProp b k) := by
  induction a with
  | nil => simp [getProp, firstSome]
  | cons kv rest ih =>
    obtain ⟨k₀, v₀⟩ := kv
    by_cases h : k = k₀ <;> simp [getProp, firstSome, h, ih]

theorem firstSome_assoc (a b c : Option JsValue) :
    firstSome (firstSome a b) c = firstSome a (firstSome b c) := by
  cases a <;> simp [firstSome]

theorem firstSome_none_right (a : Option JsValue) : firstSome a none = a := by
  cases a <;> simp [firstSome]

theorem firstSome_none_left (b : Option JsValue) : firstSome none b = b := rfl

/-- Lookup through `Object.assign`: the *last* binding of a key in the
source wins over the target — layered objects compose by left-biased
choice on the reversed source. -/
theorem getProp_assignProps (target source : JsObject) (k : String) :
    getProp (assignProps target source) k =
      firstSome (getProp source.reverse k) (getProp target k) := by
  induction source generalizing target with
  | nil => simp [assignProps, getProp, firstSome]
  | cons kv rest ih =>
    obtain ⟨k₀, v₀⟩ := kv
    have hstep : getProp (setProp target k₀ v₀) k =
        firstSome (if k = k₀ then some v₀ else none) (getProp target k) := by
      by_cases h : k = k₀
      · subst h
        simp [getProp_setProp_self, firstSome]
      · simp [getProp_setProp_ne target k₀ k v₀ h, firstSome, h]
    calc getProp (assignProps target ((k₀, v₀) :: rest)) k
        = getProp (assignProps (setProp target k₀ v₀) rest) k := rfl
      _ = firstSome (getProp rest.reverse k) (getProp (setProp target k₀ v₀) k) :=
          ih (setProp target k₀ v₀)
      _ = firstSome (getProp rest.reverse k)
            (firstSome (if k = k₀ then some v₀ else none) (getProp target k)) := by
          rw [hstep]
      _ = firstSome (firstSome (getProp rest.reverse k)
            (if k = k₀ then some v₀ else none)) (getProp target k) := by
          rw [firstSome_assoc]
      _ = firstSome (getProp (rest.reverse ++ [(k₀, v₀)]) k) (getProp target k) := by
          rw [getProp_append]
          by_cases h : k = k₀ <;> simp [getProp, h]
      _ = firstSome (getProp ((k₀, v₀) :: rest).reverse k) (getProp target k) := by
          simp

theorem getProp_eq_none_of_not_mem (o : JsObject) (k : String)
    (h : k ∉ keys o) : getProp o k = none := by
  induction o with
  | nil => simp [getProp]
  | cons kv rest ih =>
    obtain ⟨k₀, v₀⟩ := kv
    simp only [keys, List.map_cons, List.mem_cons, not_or] at h
    simp [getProp, h.1, ih (by simpa [keys] using h.2)]

theorem getProp_reverse_eq_none (o : JsObject) (k : String)
    (h : k ∉ keys o) : getProp o.reverse k = none := by
  apply getProp_eq_none_of_not_mem
  simpa [keys, List.map_reverse] using h

/-- On an object without duplicate keys — every real JS object — lookup
in the reversed property list agrees with lookup in the list itself. -/
theorem getProp_reverse_of_nodup (o : JsObject) (k : String)
    (h : (keys o).Nodup) : getProp o.reverse k = getProp o k := by
  induction o with
  | nil => simp
  | cons kv rest ih =>
    obtain ⟨k₀, v₀⟩ := kv
    simp only [keys, List.map_cons, List.nodup_cons] at h
    rw [List.reverse_cons, getProp_append]
    by_cases hk : k = k₀
    · subst hk
      have hnone : getProp rest.reverse k = none := by
        apply getProp_eq_none_of_not_mem
        simpa [keys, List.map_reverse] using h.1
      simp [hnone, firstSome, getProp]
    · rw [ih h.2]
      cases hr : getProp rest k <;> simp [firstSome, getProp, hk, hr]

theorem getProp_optEntry_self (k : String) (v : Option JsValue) :
    getProp (optEntry k v) k = v := by
  cases v <;> simp [optEntry, getProp]

theorem getProp_optEntry_ne (k k' : String) (v : Option JsValue) (h : k' ≠ k) :
    getProp (optEntry k v) k' = none := by
  cases v <;> simp [optEntry, getProp, h]

theorem keys_append (a b : JsObject) : keys (a ++ b) = keys a ++ keys b := by
  simp [keys]

theorem keys_optEntry_sublist (k : String) (v : Option JsValue) :
    List.Sublist (keys (optEntry k v)) [k] := by
  cases v <;> simp [optEntry, keys]

theorem filter_optEntry_key_true (props : List String) (k : String)
    (v : Option JsValue) (h : k ∈ props) :
    (optEntry k v).filter (fun kv => kv.1 ∈ props) = optEntry k v := by
  cases v <;> simp [optEntry, h]

theorem filter_optEntry_key_false (props : List String) (k : String)
    (v : Option JsValue) (h : k ∉ props) :
    (optEntry k v).filter (fun kv => kv.1 ∈ props) = [] := by
  cases v <;> simp [optEntry, h]

/-! ## Settings-entry lemmas -/

theorem keys_imageSettingsEntries_sublist (s : OpenAIImageGenerationSettings) :
    List.Sublist (keys (imageSettingsEntries s))
      ["baseUrl", "n", "size", "apiKey", "retry", "throttle",
       "isUserIdForwardingEnabled"] := by
  rw [imageSettingsEntries, keys_append, keys_append, keys_append,
    keys_append, keys_append, keys_append]
  exact ((((((keys_optEntry_sublist _ _).append
    (keys_optEntry_sublist _ _)).append
    (keys_optEntry_sublist _ _)).append
    (keys_optEntry_sublist _ _)).append
    (keys_optEntry_sublist _ _)).append
    (keys_optEntry_sublist _ _)).append
    (keys_optEntry_sublist _ _)

theorem nodup_keys_imageSettingsEntries (s : OpenAIImageGenerationSettings) :
    (keys (imageSettingsEntries s)).Nodup :=
  (by decide :
    (["baseUrl", "n", "size", "apiKey", "retry", "throttle",
      "isUserIdForwardingEnabled"] : List String).Nodup).sublist
    (keys_imageSettingsEntries_sublist s)

theorem user_not_mem_keys_imageSettingsEntries
    (s : OpenAIImageGenerationSettings) :
    "user" ∉ keys (imageSettingsEntries s) := by
  intro h
  simpa using (keys_imageSettingsEntries_sublist s).subset h

theorem keys_textSettingsEntries_sublist (s : OpenAITextGenerationModelSettings) :
    List.Sublist (keys (textSettingsEntries s))
      ["isUserIdForwardingEnabled", "suffix", "maxTokens", "temperature",
       "topP", "n", "logprobs", "echo", "stop", "presencePenalty",
       "frequencyPenalty", "bestOf"] := by
  rw [textSettingsEntries, keys_append, keys_append, keys_append, keys_append,
    keys_append, keys_append, keys_append, keys_append, keys_append,
    keys_append, keys_append]
  exact (((((((((((keys_optEntry_sublist _ _).append
    (keys_optEntry_sublist _ _)).append
    (keys_optEntry_sublist _ _)).append
    (keys_optEntry_sublist _ _)).append
    (keys_optEntry_sublist _ _)).append
    (keys_optEntry_sublist _ _)).append
    (keys_optEntry_sublist _ _)).append
    (keys_optEntry_sublist _ _)).append
    (keys_optEntry_sublist _ _)).append
    (keys_optEntry_sublist _ _)).append
    (keys_optEntry_sublist _ _)).append
    (keys_optEntry_sublist _ _)

theorem user_not_mem_keys_textSettingsEntries
    (s : OpenAITextGenerationModelSettings) :
    "user" ∉ keys (textSettingsEntries s) := by
  intro h
  simpa using (keys_textSettingsEntries_sublist s).subset h

theorem nodup_keys_imageCallFinals (run : Option RunContext) (prompt : String)
    (responseFormat : JsValue) :
    (keys (imageCallFinals run prompt responseFormat)).Nodup := by
  simp [imageCallFinals, keys]

theorem settingsForEvent_eq (s : OpenAIImageGenerationSettings) :
    settingsForEvent s =
      optEntry "baseUrl" s.baseUrl ++ optEntry "n" s.n ++
        optEntry "size" s.size := by
  rw [settingsForEvent, imageSettingsEntries]
  rw [List.filter_append, List.filter_append, List.filter_append,
    List.filter_append, List.filter_append, List.filter_append]
  rw [filter_optEntry_key_true _ _ _ (by decide),
    filter_optEntry_key_true _ _ _ (by decide),
    filter_optEntry_key_true _ _ _ (by decide),
    filter_optEntry_key_false _ _ _ (by decide),
    filter_optEntry_key_false _ _ _ (by decide),
    filter_optEntry_key_false _ _ _ (by decide),
    filter_optEntry_key_false _ _ _ (by decide)]
  simp

/-! ## Retry lemma -/

theorem retryGo_sustained_failure (Err A : Type)
    (initialDelay backoffFactor : Nat) (err : Nat → Err) (k rest : Nat) :
    retryGo Err A initialDelay backoffFactor (fun i => .error (err i)) k rest =
      ⟨rest + 1,
       (List.range rest).map (fun i => initialDelay * backoffFactor ^ (k + i)),
       .error (err (k + rest))⟩ := by
  induction rest generalizing k with
  | zero => simp [retryGo]
  | succ rest ih =>
    simp only [retryGo, ih (k + 1)]
    have hdelays : (List.range (rest + 1)).map
          (fun i => initialDelay * backoffFactor ^ (k + i)) =
        initialDelay * backoffFactor ^ k ::
          (List.range rest).map (fun i => initialDelay * backoffFactor ^ (k + 1 + i)) := by
      rw [List.range_succ_eq_map, List.map_cons, List.map_map]
      refine congrArg₂ _ (by rw [Nat.add_zero]) ?_
      refine congrArg (fun g => List.map g (List.range rest)) ?_
      funext i
      have h : k + 1 + i = k + Nat.succ i := by omega
      simp [Function.comp, h]
    rw [hdelays]
    have h2 : k + 1 + rest = k + (rest + 1) := by omega
    rw [h2]

/-! ## Claim theorems -/

/-- C1: for every tool and every successful parameter-generation call —
the generation phase being applied to exactly the tool's input schema
together with the tool's name and description — `useTool` returns the
record whose `tool` field is the tool's name, whose `parameters` field is
the validated generated value, and whose `result` field is the output of
invoking the tool's execute action on those parameters. -/
theorem useTool_returns_generated_record (S P R E GenErr : Type)
    (gen : SchemaDescription S → Except GenErr P) (tool : Tool S P R E)
    (v : P) (r : R)
    (hgen : gen ⟨tool.name, tool.description, tool.inputSchema⟩ = .ok v)
    (hexec : tool.execute v = .ok r) :
    (useTool S P R E GenErr gen tool).1 = .ok ⟨tool.name, v, r⟩ := by
  simp [useTool, executeTool, hgen, hexec]

theorem useTool_returns_generated_record_witness :
    (useTool Unit String String Unit Unit (fun _ => .ok "paris")
        ⟨"city", "look up a city", (), fun s => .ok (s ++ "!")⟩).1 =
      .ok ⟨"city", "paris", "paris!"⟩ :=
  useTool_returns_generated_record Unit String String Unit Unit
    (fun _ => .ok "paris") ⟨"city", "look up a city", (), fun s => .ok (s ++ "!")⟩
    "paris" "paris!" rfl rfl

/-- C2: in `useTool`, a failed generation phase never invokes the tool's
execute action, and a successful generation invokes it exactly once, with
the generated value, after the generation phase has completed: the event
trace is exactly generation success followed by the single action
invocation. -/
theorem useTool_action_invocation (S P R E GenErr : Type)
    (gen : SchemaDescription S → Except GenErr P) (tool : Tool S P R E) :
    (∀ e, gen ⟨tool.name, tool.description, tool.inputSchema⟩ = .error e →
      ((useTool S P R E GenErr gen tool).2.countP
        (ToolEvent.isExecuteInvoked P)) = 0) ∧
    (∀ v, gen ⟨tool.name, tool.description, tool.inputSchema⟩ = .ok v →
      (useTool S P R E GenErr gen tool).2 =
        [.generationSucceeded v, .executeInvoked v]) := by
  constructor
  · intro e h
    simp [useTool, h, ToolEvent.isExecuteInvoked]
  · intro v h
    simp only [useTool, h]
    cases hE : executeTool S P R E tool v <;> simp

theorem useTool_action_invocation_witness :
    ((useTool Unit String String Unit Unit (fun _ => .error ())
        ⟨"city", "look up a city", (), fun s => .ok (s ++ "!")⟩).2.countP
      (ToolEvent.isExecuteInvoked String)) = 0 ∧
    (useTool Unit String String Unit Unit (fun _ => .ok "paris")
        ⟨"city", "look up a city", (), fun s => .ok (s ++ "!")⟩).2 =
      [.generationSucceeded "paris", .executeInvoked "paris"] :=
  ⟨(useTool_action_invocation Unit String String Unit Unit (fun _ => .error ())
      ⟨"city", "look up a city", (), fun s => .ok (s ++ "!")⟩).1 () rfl,
   (useTool_action_invocation Unit String String Unit Unit (fun _ => .ok "paris")
      ⟨"city", "look up a city", (), fun s => .ok (s ++ "!")⟩).2 "paris" rfl⟩

/-- C3: `generateText`'s extracted output is the model's extracted text
trimmed of leading and trailing whitespace when `trimWhitespace` is unset
(default) or explicitly `true`, and the extracted text unchanged exactly
when `trimWhitespace` is explicitly `false`. -/
theorem generateText_trim_whitespace (R : Type) (model : TextGenerationModel R)
    (result : R) :
    (model.settings.trimWhitespace = none →
      generateTextExtractOutputValue R model result =
        (model.extractText result).trim) ∧
    (model.settings.trimWhitespace = some true →
      generateTextExtractOutputValue R model result =
        (model.extractText result).trim) ∧
    (model.settings.trimWhitespace = some false →
      generateTextExtractOutputValue R model result =
        model.extractText result) := by
  refine ⟨?_, ?_, ?_⟩ <;> intro h <;>
    simp [generateTextExtractOutputValue, h]

theorem generateText_trim_whitespace_witness :
    generateTextExtractOutputValue Unit ⟨⟨none⟩, fun _ => " hi "⟩ () =
      " hi ".trim ∧
    generateTextExtractOutputValue Unit ⟨⟨some false⟩, fun _ => " hi "⟩ () =
      " hi " :=
  ⟨(generateText_trim_whitespace Unit ⟨⟨none⟩, fun _ => " hi "⟩ ()).1 rfl,
   (generateText_trim_whitespace Unit ⟨⟨some false⟩, fun _ => " hi "⟩ ()).2.2 rfl⟩

/-- C8: value extraction indexes the first element without an emptiness
guard: on a non-empty `choices` (resp. `data`) array the extractors
return `choices[0].text` (resp. `data[0].b64_json`), and on an empty
array they produce no value (the access fails). -/
theorem extract_first_element_unguarded
    (rawText : OpenAITextGenerationResponse)
    (rawImage : OpenAIImageGenerationBase64JsonResponse) :
    (∀ c cs, rawText.choices = c :: cs →
      OpenAITextGenerationModel.extractOutput rawText = some c.text) ∧
    (rawText.choices = [] →
      OpenAITextGenerationModel.extractOutput rawText = none) ∧
    (∀ d ds, rawImage.data = d :: ds →
      extractBase64Image rawImage = some d.b64_json) ∧
    (rawImage.data = [] → extractBase64Image rawImage = none) := by
  refine ⟨?_, ?_, ?_, ?_⟩
  · intro c cs h
    simp [OpenAITextGenerationModel.extractOutput, h]
  · intro h
    simp [OpenAITextGenerationModel.extractOutput, h]
  · intro d ds h
    simp [extractBase64Image, h]
  · intro h
    simp [extractBase64Image, h]

theorem extract_first_element_unguarded_witness :
    OpenAITextGenerationModel.extractOutput ⟨[⟨"hello"⟩, ⟨"other"⟩]⟩ =
      some "hello" ∧
    OpenAITextGenerationModel.extractOutput ⟨[]⟩ = none ∧
    extractBase64Image ⟨7, [⟨"aGk="⟩]⟩ = some "aGk=" ∧
    extractBase64Image ⟨7, []⟩ = none :=
  ⟨(extract_first_element_unguarded ⟨[⟨"hello"⟩, ⟨"other"⟩]⟩ ⟨7, [⟨"aGk="⟩]⟩).1
      ⟨"hello"⟩ [⟨"other"⟩] rfl,
   (extract_first_element_unguarded ⟨[]⟩ ⟨7, []⟩).2.1 rfl,
   (extract_first_element_unguarded ⟨[⟨"hello"⟩]⟩ ⟨7, [⟨"aGk="⟩]⟩).2.2.1
      ⟨"aGk="⟩ [] rfl,
   (extract_first_element_unguarded ⟨[⟨"hello"⟩]⟩ ⟨7, []⟩).2.2.2 rfl⟩

/-- C9: `settingsForEvent` keeps exactly the `baseUrl`, `n` and `size`
entries of the settings — each present in the projection with its value
if and only if set in the model's settings — and the `apiKey`, `retry`
and `throttle` settings never appear in it. -/
theorem settingsForEvent_projection (s : OpenAIImageGenerationSettings) :
    (∀ kv, kv ∈ settingsForEvent s → kv.1 ∈ ["baseUrl", "n", "size"]) ∧
    getProp (settingsForEvent s) "baseUrl" = s.baseUrl ∧
    getProp (settingsForEvent s) "n" = s.n ∧
    getProp (settingsForEvent s) "size" = s.size ∧
    getProp (settingsForEvent s) "apiKey" = none ∧
    getProp (settingsForEvent s) "retry" = none ∧
    getProp (settingsForEvent s) "throttle" = none := by
  refine ⟨?_, ?_, ?_, ?_, ?_, ?_, ?_⟩
  · intro kv h
    have hp := List.of_mem_filter h
    simpa using hp
  all_goals
    simp [settingsForEvent_eq, getProp_append, getProp_optEntry_self,
      getProp_optEntry_ne, firstSome_none_right, firstSome_none_left]

theorem settingsForEvent_projection_witness :
    (("n", JsValue.num 2) : String × JsValue).1 ∈ ["baseUrl", "n", "size"] ∧
    getProp (settingsForEvent
        ⟨some (.str "https://api.example"), some (.num 2), none, some "sk",
         some (.obj 4), none, some true⟩) "baseUrl" =
      some (.str "https://api.example") ∧
    getProp (settingsForEvent
        ⟨some (.str "https://api.example"), some (.num 2), none, some "sk",
         some (.obj 4), none, some true⟩) "n" = some (.num 2) ∧
    getProp (settingsForEvent
        ⟨some (.str "https://api.example"), some (.num 2), none, some "sk",
         some (.obj 4), none, some true⟩) "size" = none ∧
    getProp (settingsForEvent
        ⟨some (.str "https://api.example"), some (.num 2), none, some "sk",
         some (.obj 4), none, some true⟩) "apiKey" = none ∧
    getProp (settingsForEvent
        ⟨some (.str "https://api.example"), some (.num 2), none, some "sk",
         some (.obj 4), none, some true⟩) "retry" = none ∧
    getProp (settingsForEvent
        ⟨some (.str "https://api.example"), some (.num 2), none, some "sk",
         some (.obj 4), none, some true⟩) "throttle" = none :=
  ⟨(settingsForEvent_projection
      ⟨some (.str "https://api.example"), some (.num 2), none, some "sk",
       some (.obj 4), none, some true⟩).1 ("n", JsValue.num 2) (by decide),
   (settingsForEvent_projection
      ⟨some (.str "https://api.example"), some (.num 2), none, some "sk",
       some (.obj 4), none, some true⟩).2⟩

/-- C4: `withSettings` allocates a fresh settings object —
`Object.assign({}, this.settings, additionalSettings)` targets a new
empty object — so the returned model instance is new (its settings
reference differs from the original's) and the original instance's
settings object is unchanged by the call, while the new object holds the
merge. -/
theorem withSettings_fresh_never_mutates (h : SettingsHeap)
    (thisSettings : Nat) (additional : JsObject)
    (hlt : thisSettings < h.objs.length) :
    ((withSettingsAlloc h thisSettings additional).1.get thisSettings =
      h.get thisSettings) ∧
    ((withSettingsAlloc h thisSettings additional).2 ≠ thisSettings) ∧
    ((withSettingsAlloc h thisSettings additional).1.get
        ((withSettingsAlloc h thisSettings additional).2) =
      withSettingsMerge (h.get thisSettings) additional) := by
  refine ⟨?_, ?_, ?_⟩
  · show (h.objs ++ [withSettingsMerge (h.get thisSettings) additional]).getD
        thisSettings [] = h.objs.getD thisSettings []
    rw [List.getD_eq_getElem?_getD, List.getD_eq_getElem?_getD,
      List.getElem?_append_left hlt]
  · show h.objs.length ≠ thisSettings
    omega
  · show (h.objs ++ [withSettingsMerge (h.get thisSettings) additional]).getD
        h.objs.length [] = withSettingsMerge (h.get thisSettings) additional
    rw [List.getD_eq_getElem?_getD, List.getElem?_concat_length]
    rfl

theorem withSettings_fresh_never_mutates_witness :
    (0 : Nat) < (SettingsHeap.mk [[("temperature", JsValue.num 1)]]).objs.length ∧
    ((withSettingsAlloc ⟨[[("temperature", JsValue.num 1)]]⟩ 0
        [("maxTokens", JsValue.num 500)]).1.get 0 =
      SettingsHeap.get ⟨[[("temperature", JsValue.num 1)]]⟩ 0) ∧
    ((withSettingsAlloc ⟨[[("temperature", JsValue.num 1)]]⟩ 0
        [("maxTokens", JsValue.num 500)]).2 ≠ 0) ∧
    ((withSettingsAlloc ⟨[[("temperature", JsValue.num 1)]]⟩ 0
        [("maxTokens", JsValue.num 500)]).1.get
        ((withSettingsAlloc ⟨[[("temperature", JsValue.num 1)]]⟩ 0
          [("maxTokens", JsValue.num 500)]).2) =
      withSettingsMerge
        (SettingsHeap.get ⟨[[("temperature", JsValue.num 1)]]⟩ 0)
        [("maxTokens", JsValue.num 500)]) :=
  ⟨by decide,
   withSettings_fresh_never_mutates ⟨[[("temperature", JsValue.num 1)]]⟩ 0
     [("maxTokens", JsValue.num 500)] (by decide)⟩

/-- C5: settings merging is field-by-field with later layers overriding
earlier ones: in `callAPI` the effective call settings at any key are the
per-call finals (`abortSignal`/`prompt`/`responseFormat`) first, else the
per-call `options.settings`, else the model's own settings, else the
defaults (`apiKey`, `user`); and in `withSettings` each field present in
`additionalSettings` overrides the same-named field of the current
settings while unmentioned fields are preserved. -/
theorem settings_merge_layering (s : OpenAIImageGenerationSettings)
    (apiKey : String) (run : Option RunContext) (perCall : JsObject)
    (prompt : String) (responseFormat : JsValue)
    (current additional : JsObject) (k : String)
    (hpc : (keys perCall).Nodup) (hcur : (keys current).Nodup)
    (hadd : (keys additional).Nodup) :
    getProp (imageCallSettings s apiKey run perCall prompt responseFormat) k =
      firstSome (getProp (imageCallFinals run prompt responseFormat) k)
        (firstSome (getProp perCall k)
          (firstSome (getProp (imageSettingsEntries s) k)
            (getProp (imageCallDefaults s apiKey run) k))) ∧
    getProp (withSettingsMerge current additional) k =
      firstSome (getProp additional k) (getProp current k) := by
  constructor
  · rw [imageCallSettings, getProp_assignProps, getProp_assignProps,
      getProp_assignProps]
    rw [getProp_reverse_of_nodup _ _ (nodup_keys_imageCallFinals run prompt responseFormat),
      getProp_reverse_of_nodup _ _ hpc,
      getProp_reverse_of_nodup _ _ (nodup_keys_imageSettingsEntries s)]
  · rw [withSettingsMerge, getProp_assignProps, getProp_assignProps,
      getProp_reverse_of_nodup _ _ hadd, getProp_reverse_of_nodup _ _ hcur]
    simp [getProp, firstSome_none_right]

theorem settings_merge_layering_witness :
    ((keys [("n", JsValue.num 9)]).Nodup ∧
      (keys [("a", JsValue.num 1)]).Nodup ∧
      (keys [("a", JsValue.num 2)]).Nodup) ∧
    (getProp (imageCallSettings ⟨none, some (.num 4), none, none, none, none, none⟩
        "sk" none [("n", JsValue.num 9)] "p" (.obj 3)) "n" =
      firstSome (getProp (imageCallFinals none "p" (.obj 3)) "n")
        (firstSome (getProp [("n", JsValue.num 9)] "n")
          (firstSome
            (getProp (imageSettingsEntries
              ⟨none, some (.num 4), none, none, none, none, none⟩) "n")
            (getProp (imageCallDefaults
              ⟨none, some (.num 4), none, none, none, none, none⟩ "sk" none) "n"))) ∧
      getProp (withSettingsMerge [("a", JsValue.num 1)] [("a", JsValue.num 2)]) "n" =
        firstSome (getProp [("a", JsValue.num 2)] "n")
          (getProp [("a", JsValue.num 1)] "n")) :=
  ⟨⟨by decide, by decide, by decide⟩,
   settings_merge_layering ⟨none, some (.num 4), none, none, none, none, none⟩
     "sk" none [("n", JsValue.num 9)] "p" (.obj 3)
     [("a", JsValue.num 1)] [("a", JsValue.num 2)] "n"
     (by decide) (by decide) (by decide)⟩

/-- C7: under sustained retryable failure, a retry policy with
`maxTries = N` makes exactly N attempts (the first included), the delay
slept before attempt k (2 ≤ k ≤ N) is
`initialDelay × backoffFactor^(k-1)`, and the surfaced error is the one
observed on attempt N, not a synthetic too-many-retries error. -/
theorem retry_backoff_sustained_failure (Err A : Type) (err : Nat → Err)
    (maxTries initialDelay backoffFactor : Nat) (h : 1 ≤ maxTries) :
    (retryWithExponentialBackoff Err A maxTries initialDelay backoffFactor
        (fun i => .error (err i))).attemptsMade = maxTries ∧
    (∀ k, 2 ≤ k → k ≤ maxTries →
      (retryWithExponentialBackoff Err A maxTries initialDelay backoffFactor
          (fun i => .error (err i))).delays[k - 2]? =
        some (initialDelay * backoffFactor ^ (k - 1))) ∧
    (retryWithExponentialBackoff Err A maxTries initialDelay backoffFactor
        (fun i => .error (err i))).outcome = .error (err maxTries) := by
  rw [retryWithExponentialBackoff, retryGo_sustained_failure]
  refine ⟨?_, ?_, ?_⟩
  · show maxTries - 1 + 1 = maxTries
    omega
  · intro k h2 hk
    show ((List.range (maxTries - 1)).map
        (fun i => initialDelay * backoffFactor ^ (1 + i)))[k - 2]? =
      some (initialDelay * backoffFactor ^ (k - 1))
    rw [List.getElem?_map,
      List.getElem?_range (show k - 2 < maxTries - 1 by omega)]
    have he : 1 + (k - 2) = k - 1 := by omega
    simp [he]
  · show Except.error (err (1 + (maxTries - 1))) =
      Except.error (err maxTries)
    have he : 1 + (maxTries - 1) = maxTries := by omega
    rw [he]

theorem retry_backoff_sustained_failure_witness :
    ((1 : Nat) ≤ 3 ∧ (2 : Nat) ≤ 3 ∧ (3 : Nat) ≤ 3) ∧
    (retryWithExponentialBackoff Nat Unit 3 5 2
        (fun i => .error i)).attemptsMade = 3 ∧
    (retryWithExponentialBackoff Nat Unit 3 5 2
        (fun i => .error i)).delays[(3 : Nat) - 2]? =
      some (5 * 2 ^ ((3 : Nat) - 1)) ∧
    (retryWithExponentialBackoff Nat Unit 3 5 2
        (fun i => .error i)).outcome = .error 3 :=
  ⟨⟨by decide, by decide, by decide⟩,
   (retry_backoff_sustained_failure Nat Unit (fun i => i) 3 5 2 (by decide)).1,
   (retry_backoff_sustained_failure Nat Unit (fun i => i) 3 5 2 (by decide)).2.1
     3 (by decide) (by decide),
   (retry_backoff_sustained_failure Nat Unit (fun i => i) 3 5 2 (by decide)).2.2⟩

/-- C10: `callAPI` fails with the missing-API-key error — before any
provider request is issued (the request trace is empty) — whenever
`settings.apiKey` is unset and the `OPENAI_API_KEY` environment variable
is unset; and whenever `settings.apiKey` is set, it takes precedence over
the environment variable, which is itself used as the fallback. -/
theorem apiKey_missing_and_precedence (s : OpenAIImageGenerationSettings)
    (run : Option RunContext) (perCall : JsObject) (prompt : String)
    (responseFormat : JsValue) (hk : s.apiKey = none) :
    imageCallAPI s none run perCall prompt responseFormat =
      (.error "OpenAI API key is missing. Pass it as an argument to the constructor or set it as an environment variable named OPENAI_API_KEY.",
       []) ∧
    (∀ k env, openAIImageModelApiKey (some k) env = .ok k) ∧
    (∀ k, openAIImageModelApiKey none (some k) = .ok k) := by
  refine ⟨?_, fun k env => rfl, fun k => rfl⟩
  simp [imageCallAPI, openAIImageModelApiKey, hk]

theorem apiKey_missing_and_precedence_witness :
    (OpenAIImageGenerationSettings.mk none none none none none none none).apiKey =
      none ∧
    imageCallAPI ⟨none, none, none, none, none, none, none⟩ none none [] "p"
        (.obj 0) =
      (.error "OpenAI API key is missing. Pass it as an argument to the constructor or set it as an environment variable named OPENAI_API_KEY.",
       []) ∧
    openAIImageModelApiKey (some "sk-a") (some "sk-env") = .ok "sk-a" ∧
    openAIImageModelApiKey none (some "sk-env") = .ok "sk-env" :=
  ⟨rfl,
   (apiKey_missing_and_precedence ⟨none, none, none, none, none, none, none⟩
      none [] "p" (.obj 0) rfl).1,
   (apiKey_missing_and_precedence ⟨none, none, none, none, none, none, none⟩
      none [] "p" (.obj 0) rfl).2.1 "sk-a" (some "sk-env"),
   (apiKey_missing_and_precedence ⟨none, none, none, none, none, none, none⟩
      none [] "p" (.obj 0) rfl).2.2 "sk-env"⟩

/-- C6, counterexample to the claim as stated: in the image model's
`callAPI` the per-call `options.settings` layer (typed to allow a `user`
entry) is merged *after* the defaults layer carrying the forwarded
`user`, so with `isUserIdForwardingEnabled` unset the request's `user`
field is not `undefined` when the per-call settings set one: it is the
per-call value. -/
theorem userId_forwarding_counterexample :
    getProp (imageCallSettings ⟨none, none, none, some "sk", none, none, none⟩
        "sk" (some ⟨some "alice", 0⟩) [("user", JsValue.str "bob")]
        "a prompt" (.obj 1)) "user" = some (JsValue.str "bob") ∧
    some (JsValue.str "bob") ≠ some JsValue.undef := by
  constructor
  · decide
  · decide

/-- C6 amended: the run context's userId reaches the provider request
only when `isUserIdForwardingEnabled` is true, provided the per-call
settings object does not itself carry a `user` entry (that later merge
layer overrides the forwarded value): with forwarding enabled the
request's `user` field equals the context's userId; with it false or
unset the `user` field is `undefined`; and requests from two runs
differing only in their userId are identical whenever forwarding is
disabled. -/
theorem userId_forwarding_optIn (m : OpenAITextGenerationModel)
    (input : String) (ctx : Option RunContext)
    (s : OpenAIImageGenerationSettings) (apiKey : String) (run : RunContext)
    (perCall : JsObject) (prompt : String) (responseFormat : JsValue)
    (hnouser : "user" ∉ keys perCall) :
    (m.settings.isUserIdForwardingEnabled = some true →
      getProp (textGenerateRequest m input ctx) "user" =
        some (jsOfOptStr (ctx.bind RunContext.userId))) ∧
    (m.settings.isUserIdForwardingEnabled ≠ some true →
      getProp (textGenerateRequest m input ctx) "user" = some JsValue.undef) ∧
    (m.settings.isUserIdForwardingEnabled ≠ some true →
      ∀ c c' : RunContext, c.abortSignal = c'.abortSignal →
        textGenerateRequest m input (some c) =
          textGenerateRequest m input (some c')) ∧
    (s.isUserIdForwardingEnabled = some true →
      getProp (imageCallSettings s apiKey (some run) perCall prompt
          responseFormat) "user" =
        some (jsOfOptStr run.userId)) ∧
    (s.isUserIdForwardingEnabled ≠ some true →
      getProp (imageCallSettings s apiKey (some run) perCall prompt
          responseFormat) "user" = some JsValue.undef) ∧
    (s.isUserIdForwardingEnabled ≠ some true →
      ∀ r' : RunContext, r'.abortSignal = run.abortSignal →
        imageCallSettings s apiKey (some r') perCall prompt responseFormat =
          imageCallSettings s apiKey (some run) perCall prompt
            responseFormat) := by
  have htext : getProp (textGenerateRequest m input ctx) "user" =
      getProp (textRequestBase m input ctx) "user" := by
    rw [textGenerateRequest, getProp_assignProps,
      getProp_reverse_eq_none _ _
        (user_not_mem_keys_textSettingsEntries m.settings),
      firstSome_none_left]
  have himg : getProp (imageCallSettings s apiKey (some run) perCall prompt
        responseFormat) "user" =
      getProp (imageCallDefaults s apiKey (some run)) "user" := by
    rw [imageCallSettings, getProp_assignProps, getProp_assignProps,
      getProp_assignProps]
    rw [getProp_reverse_eq_none _ _
        (show "user" ∉ keys (imageCallFinals (some run) prompt responseFormat) by
          simp [imageCallFinals, keys]),
      firstSome_none_left]
    rw [getProp_reverse_eq_none _ _ hnouser, firstSome_none_left]
    rw [getProp_reverse_eq_none _ _ (user_not_mem_keys_imageSettingsEntries s),
      firstSome_none_left]
  refine ⟨?_, ?_, ?_, ?_, ?_, ?_⟩
  · intro hfwd
    rw [htext]
    simp [textRequestBase, getProp, hfwd]
  · intro hfwd
    have hb : m.settings.isUserIdForwardingEnabled.getD false = false := by
      rcases hopt : m.settings.isUserIdForwardingEnabled with _ | b
      · rfl
      · cases b
        · rfl
        · exact absurd hopt hfwd
    rw [htext]
    simp [textRequestBase, getProp, hb]
  · intro hfwd c c' hsig
    have hb : m.settings.isUserIdForwardingEnabled.getD false = false := by
      rcases hopt : m.settings.isUserIdForwardingEnabled with _ | b
      · rfl
      · cases b
        · rfl
        · exact absurd hopt hfwd
    simp [textGenerateRequest, textRequestBase, jsOfAbortSignal, hb, hsig]
  · intro hfwd
    rw [himg]
    simp [imageCallDefaults, imageUserValue, getProp, hfwd]
  · intro hfwd
    have hb : s.isUserIdForwardingEnabled.getD false = false := by
      rcases hopt : s.isUserIdForwardingEnabled with _ | b
      · rfl
      · cases b
        · rfl
        · exact absurd hopt hfwd
    rw [himg]
    simp [imageCallDefaults, imageUserValue, getProp, hb]
  · intro hfwd r' hsig
    have hb : s.isUserIdForwardingEnabled.getD false = false := by
      rcases hopt : s.isUserIdForwardingEnabled with _ | b
      · rfl
      · cases b
        · rfl
        · exact absurd hopt hfwd
    simp [imageCallSettings, imageCallDefaults, imageCallFinals,
      imageUserValue, jsOfAbortSignal, hb, hsig]

theorem userId_forwarding_optIn_witness :
    "user" ∉ keys ([] : JsObject) ∧
    getProp (textGenerateRequest
        ⟨none, "sk", "text-davinci-003",
         ⟨some true, none, none, none, none, none, none, none, none, none,
          none, none⟩⟩
        "a prompt" (some ⟨some "alice", 3⟩)) "user" =
      some (JsValue.str "alice") ∧
    getProp (textGenerateRequest
        ⟨none, "sk", "text-davinci-003",
         ⟨none, none, none, none, none, none, none, none, none, none,
          none, none⟩⟩
        "a prompt" (some ⟨some "alice", 3⟩)) "user" = some JsValue.undef ∧
    getProp (imageCallSettings
        ⟨none, none, none, some "sk", none, none, some true⟩ "sk"
        (some ⟨some "alice", 3⟩) [] "a prompt" (.obj 1)) "user" =
      some (JsValue.str "alice") ∧
    imageCallSettings ⟨none, none, none, some "sk", none, none, none⟩ "sk"
        (some ⟨some "alice", 5⟩) [] "a prompt" (.obj 1) =
      imageCallSettings ⟨none, none, none, some "sk", none, none, none⟩ "sk"
        (some ⟨some "bob", 5⟩) [] "a prompt" (.obj 1) :=
  ⟨by decide,
   (userId_forwarding_optIn
      ⟨none, "sk", "text-davinci-003",
       ⟨some true, none, none, none, none, none, none, none, none, none,
        none, none⟩⟩
      "a prompt" (some ⟨some "alice", 3⟩)
      ⟨none, none, none, some "sk", none, none, some true⟩ "sk"
      ⟨some "alice", 3⟩ [] "a prompt" (.obj 1) (by decide)).1 rfl,
   (userId_forwarding_optIn
      ⟨none, "sk", "text-davinci-003",
       ⟨none, none, none, none, none, none, none, none, none, none,
        none, none⟩⟩
      "a prompt" (some ⟨some "alice", 3⟩)
      ⟨none, none, none, some "sk", none, none, some true⟩ "sk"
      ⟨some "alice", 3⟩ [] "a prompt" (.obj 1) (by decide)).2.1 (by decide),
   (userId_forwarding_optIn
      ⟨none, "sk", "text-davinci-003",
       ⟨some true, none, none, none, none, none, none, none, none, none,
        none, none⟩⟩
      "a prompt" (some ⟨some "alice", 3⟩)
      ⟨none, none, none, some "sk", none, none, some true⟩ "sk"
      ⟨some "alice", 3⟩ [] "a prompt" (.obj 1) (by decide)).2.2.2.1 rfl,
   (userId_forwarding_optIn
      ⟨none, "sk", "text-davinci-003",
       ⟨some true, none, none, none, none, none, none, none, none, none,
        none, none⟩⟩
      "a prompt" (some ⟨some "alice", 3⟩)
      ⟨none, none, none, some "sk", none, none, none⟩ "sk"
      ⟨some "bob", 5⟩ [] "a prompt" (.obj 1) (by decide)).2.2.2.2.2
     (by decide) ⟨some "alice", 5⟩ rfl⟩

end ModelFusion
